import Mathlib

/-!
A shallow embedding of the go-sharp/cerberus Windows service supervisor.

The embedding covers the parts of the program the verified properties
talk about:

* the recovery policy engine `handleRecovery` (src/handler.go, lines
  135-182), together with the mutable restart counter state it owns;
* the completion-event branch of the controller loop `Execute`
  (src/handler.go, lines 49-98), modelled as the step function
  `executeDoneStep`;
* the graceful-shutdown escalation `shutdown` (src/handler.go, lines
  100-133), modelled as the trace of externally visible actions it
  performs;
* the persistence of the recovery-action table, `saveServiceCfg` and
  `LoadServiceCfg` (src/cerberus.go), with the gob serialization of the
  table modelled as an explicit executable token encoder/decoder and the
  Windows registry modelled as an association list keyed by service name.

Go machine integers (`int`, `time.Duration`, timestamps) are modelled as
`Int`; in every spot where the program could overflow, the verified
properties only ever use small values, and the Go `int` is 64 bits wide
on the supported platforms, so unbounded integers are faithful for the
reasoned-about behaviours.  The `RecoveryAction` bit-flag type is
modelled as `Nat` with the concrete constants from cerberus.go
(`1 << iota`), and flag tests use `&&&` exactly like the Go `&`.

Effectful calls made by the code under scrutiny (starting the companion
program, relaunching the service executable, reading the clock) are
modelled by an explicit environment `RecoveryEnv` carrying the outcome
each call would produce; the functions stay pure and executable.
-/

namespace Cerberus

/-- Go constant `NoAction RecoveryAction = 1 << iota` (cerberus.go): the
default recovery action, stops the service. -/
def NoAction : Nat := 1

/-- Go constant `RestartAction` (cerberus.go): restart the service. -/
def RestartAction : Nat := 2

/-- Go constant `RunProgramAction` (cerberus.go): run the companion
program. -/
def RunProgramAction : Nat := 4

/-- Go constant `RunAndRestartAction = RestartAction | RunProgramAction`
(cerberus.go). -/
def RunAndRestartAction : Nat := 6

/-- Modelled from the spec: the stop-signal set constants.  The Go file
declaring `NoSignal`, `WmQuitSignal`, `WmCloseSignal` and `CtrlCSignal`
is not under src/ (handler.go only uses them); the spec describes the
stop-signal set as zero or more bit-flags, `NoSignal` being the empty
set, so the constants are modelled as the canonical bit-flag values. -/
def NoSignal : Nat := 0

/-- Modelled from the spec: the WM_QUIT cooperative stop signal flag. -/
def WmQuitSignal : Nat := 1

/-- Modelled from the spec: the WM_CLOSE cooperative stop signal flag. -/
def WmCloseSignal : Nat := 2

/-- Modelled from the spec: the Ctrl-C cooperative stop signal flag. -/
def CtrlCSignal : Nat := 4

/-- `SvcRecoveryAction` (cerberus.go): what cerberus should do if the
supervised binary exits with an error.  `ResetAfter` is a Go
`time.Duration`; `Delay` is in seconds. -/
structure SvcRecoveryAction where
  ExitCode : Int
  Action : Nat
  Delay : Int
  MaxRestarts : Int
  ResetAfter : Int
  Program : String
  Arguments : List String
deriving DecidableEq

/-- The restart bookkeeping owned by `cerberusSvc` (handler.go, fields
`restarts` and `lastRestart`).  A `none` value of `lastRestart` models
the zero `time.Time` (`lastRestart.IsZero()` in Go). -/
structure RecoveryState where
  restarts : Int
  lastRestart : Option Int
deriving DecidableEq

/-- Outcomes of the effectful calls one invocation of `handleRecovery`
makes: whether `exec.Command(action.Program, ...).Start()` succeeds,
whether `c.runSvc()` succeeds, the value of `time.Now()` at the
reset-counter check (line 154) and at the `lastRestart` assignment
(line 166). -/
structure RecoveryEnv where
  programStartOk : Bool
  runSvcOk : Bool
  now : Int
  now2 : Int
deriving DecidableEq

/-- `recoveryHandlerStatus` (handler.go, lines 26-32). -/
inductive RecoveryHandlerStatus
  | rerunServiceStatus
  | shutdownGracefullyStatus
  | errorStatus
deriving DecidableEq

/-- The counter-reset step of `handleRecovery` (handler.go, lines
153-157): if a previous restart happened and more than `ResetAfter` has
elapsed since, the restart counter is zeroed; otherwise the state is
unchanged. -/
def resetCounter (env : RecoveryEnv) (action : SvcRecoveryAction)
    (s : RecoveryState) : RecoveryState :=
  match s.lastRestart with
  | none => s
  | some t => if env.now - t > action.ResetAfter then { s with restarts := 0 } else s

/-- The restart branch of `handleRecovery` after the counter reset
(handler.go, lines 159-179): limit check, counter increment with
`lastRestart` update, delay, relaunch. -/
def restartBranch (env : RecoveryEnv) (action : SvcRecoveryAction)
    (s1 : RecoveryState) : RecoveryHandlerStatus × RecoveryState :=
  if 0 < action.MaxRestarts ∧ s1.restarts ≥ action.MaxRestarts then
    (RecoveryHandlerStatus.errorStatus, s1)
  else
    let s2 : RecoveryState := ⟨s1.restarts + 1, some env.now2⟩
    if env.runSvcOk then (RecoveryHandlerStatus.rerunServiceStatus, s2)
    else (RecoveryHandlerStatus.errorStatus, s2)

/-- `handleRecovery` (handler.go, lines 135-182).  The Go method mutates
the receiver's `restarts`/`lastRestart` fields; the model returns the
status together with the updated state.  The companion-program branch
(lines 143-149) returns `errorStatus` as soon as `Start()` fails,
before the restart branch is reached. -/
def handleRecovery (env : RecoveryEnv) (action : SvcRecoveryAction)
    (s : RecoveryState) : RecoveryHandlerStatus × RecoveryState :=
  if action.Action = NoAction then
    (RecoveryHandlerStatus.shutdownGracefullyStatus, s)
  else if action.Action &&& RunProgramAction = RunProgramAction ∧ env.programStartOk = false then
    (RecoveryHandlerStatus.errorStatus, s)
  else if action.Action &&& RestartAction = RestartAction then
    restartBranch env action (resetCounter env action s)
  else
    (RecoveryHandlerStatus.errorStatus, s)

/-- The recovery-action table of `SvcConfig` (cerberus.go): Go
`map[int]SvcRecoveryAction`, with `none` modelling a nil map.  The list
holds the key-value pairs. -/
abbrev RecoveryTable := Option (List (Int × SvcRecoveryAction))

/-- Map lookup `c.cfg.RecoveryActions[ec]` (handler.go, line 63); a nil
map has no entries. -/
def lookupAction (t : RecoveryTable) (ec : Int) : Option SvcRecoveryAction :=
  match t with
  | none => none
  | some l => l.lookup ec

/-- `SvcConfig` (cerberus.go), restricted to the fields that are
persisted in the registry by `saveServiceCfg` plus the `StopSignal`
bit-flag set used by `shutdown` (its declaring field belongs to a
version of the struct whose file is not under src/). -/
structure SvcConfig where
  Name : String
  Desc : String
  DisplayName : String
  ExePath : String
  WorkDir : String
  Args : List String
  Env : List String
  RecoveryActions : RecoveryTable
  StopSignal : Nat
deriving DecidableEq

/-- The completion event received from the `c.done` channel in
`Execute` (handler.go, lines 52-78): the child exited cleanly
(`err == nil`), exited with an `*exec.ExitError` carrying exit code
`ec`, or failed with some other error. -/
inductive DoneEvent
  | clean
  | exitErr (ec : Int)
  | otherErr
deriving DecidableEq

/-- What one handling of a completion event in `Execute`'s loop does
(handler.go, lines 52-78 and 95-97): keep looping with an updated
recovery state (`continue`), leave the loop and report the service
stopped with success (`break loop` followed by the `Stopped` status and
the naked `return`, exit code 0), or return failure to the SCM with the
given supervisor exit code (`return false, code`). -/
inductive LoopResult
  | continueLoop (s : RecoveryState)
  | stopSuccess
  | stopFailure (code : Nat)
deriving DecidableEq

/-- The completion-event branch of `Execute`'s select loop (handler.go,
lines 52-78).  A negative exit code means the child was stopped by a
signal, handled as a graceful stop; an exit code with a configured
recovery action defers to `handleRecovery`; everything else ends the
service with supervisor exit code 3. -/
def executeDoneStep (cfg : SvcConfig) (env : RecoveryEnv) (ev : DoneEvent)
    (s : RecoveryState) : LoopResult :=
  match ev with
  | DoneEvent.clean => LoopResult.stopSuccess
  | DoneEvent.otherErr => LoopResult.stopFailure 3
  | DoneEvent.exitErr ec =>
    if ec < 0 then LoopResult.stopSuccess
    else
      match lookupAction cfg.RecoveryActions ec with
      | some action =>
        match handleRecovery env action s with
        | (RecoveryHandlerStatus.rerunServiceStatus, s2) => LoopResult.continueLoop s2
        | (RecoveryHandlerStatus.shutdownGracefullyStatus, _) => LoopResult.stopSuccess
        | (RecoveryHandlerStatus.errorStatus, _) => LoopResult.stopFailure 3
      | none => LoopResult.stopFailure 3

/-- The externally visible actions of `shutdown` (handler.go, lines
100-133): sending each cooperative signal, the 30-second timeout
elapsing, the force-kill of the process tree, and receiving the
completion event from `c.done`. -/
inductive ShutdownEvent
  | sendWmQuit
  | sendWmClose
  | sendCtrlC
  | waitTimeout
  | killTree
  | waitDone
deriving DecidableEq

/-- `shutdown` (handler.go, lines 100-133), as the trace of actions it
performs.  `doneBeforeTimeout` is the outcome of the race between
`time.After(30s)` and `c.done` (line 124): when the completion event
wins, the method returns right after consuming it; when the timeout
wins, the whole process tree is killed and the completion event is then
awaited.  With an empty signal set the whole signalling block is
skipped. -/
def shutdown (sig : Nat) (doneBeforeTimeout : Bool) : List ShutdownEvent :=
  if sig > NoSignal then
    (if sig &&& WmQuitSignal = WmQuitSignal then [ShutdownEvent.sendWmQuit] else []) ++
    (if sig &&& WmCloseSignal = WmCloseSignal then [ShutdownEvent.sendWmClose] else []) ++
    (if sig &&& CtrlCSignal = CtrlCSignal then [ShutdownEvent.sendCtrlC] else []) ++
    (if doneBeforeTimeout then [ShutdownEvent.waitDone]
     else [ShutdownEvent.waitTimeout, ShutdownEvent.killTree, ShutdownEvent.waitDone])
  else
    [ShutdownEvent.killTree, ShutdownEvent.waitDone]

/-- The state sequence of the restart counter across consecutive
invocations of `handleRecovery` with the same action, starting from the
fresh supervisor state (counter 0, no previous restart), where the k-th
invocation sees the effect outcomes `envs k`. -/
def recoverySeq (action : SvcRecoveryAction) (envs : Nat → RecoveryEnv) :
    Nat → RecoveryState
  | 0 => ⟨0, none⟩
  | k + 1 => (handleRecovery (envs k) action (recoverySeq action envs k)).2

/-- The recovery state `recoverySeq` is expected to reach after k
successful restarts. -/
def expectedState (envs : Nat → RecoveryEnv) : Nat → RecoveryState
  | 0 => ⟨0, none⟩
  | j + 1 => ⟨(j : Int) + 1, some ((envs j).now2)⟩

/-- Modelled from the spec: tokens of the gob stream the recovery-action
table is serialized to.  The gob package is external to the repository;
the spec only requires that the table is gob-encoded on save and
gob-decoded on load, so the encoding is modelled as an explicit,
executable token stream that records every field of every entry. -/
inductive GobToken
  | i (v : Int)
  | n (v : Nat)
  | s (v : String)
deriving DecidableEq

/-- Gob encoding of one `SvcRecoveryAction` value: all seven fields in
declaration order, the argument list length-prefixed. -/
def encodeAction (a : SvcRecoveryAction) : List GobToken :=
  GobToken.i a.ExitCode :: GobToken.n a.Action :: GobToken.i a.Delay ::
    GobToken.i a.MaxRestarts :: GobToken.i a.ResetAfter :: GobToken.s a.Program ::
    GobToken.n a.Arguments.length :: a.Arguments.map GobToken.s

/-- Decode `k` consecutive string tokens. -/
def decodeStrings : Nat → List GobToken → Option (List String × List GobToken)
  | 0, l => some ([], l)
  | k + 1, GobToken.s x :: l =>
    match decodeStrings k l with
    | some (xs, r) => some (x :: xs, r)
    | none => none
  | _ + 1, _ => none

/-- Decode one `SvcRecoveryAction` from the head of a token stream. -/
def decodeAction : List GobToken → Option (SvcRecoveryAction × List GobToken)
  | GobToken.i ec :: GobToken.n act :: GobToken.i d :: GobToken.i mr ::
      GobToken.i ra :: GobToken.s p :: GobToken.n k :: rest =>
    match decodeStrings k rest with
    | some (args, rest2) => some (⟨ec, act, d, mr, ra, p, args⟩, rest2)
    | none => none
  | _ => none

/-- Gob encoding of the table entries: each entry is its map key
followed by the encoded action. -/
def encodeEntries : List (Int × SvcRecoveryAction) → List GobToken
  | [] => []
  | (ec, a) :: rest => GobToken.i ec :: (encodeAction a ++ encodeEntries rest)

/-- Decode `k` table entries from a token stream. -/
def decodeEntries : Nat → List GobToken →
    Option (List (Int × SvcRecoveryAction) × List GobToken)
  | 0, l => some ([], l)
  | k + 1, GobToken.i ec :: rest =>
    match decodeAction rest with
    | some (a, rest2) =>
      match decodeEntries k rest2 with
      | some (es, rest3) => some ((ec, a) :: es, rest3)
      | none => none
    | none => none
  | _ + 1, _ => none

/-- Gob encoding of the whole table: entry count, then the entries. -/
def encodeTable (t : List (Int × SvcRecoveryAction)) : List GobToken :=
  GobToken.n t.length :: encodeEntries t

/-- Gob decoding of a whole table; fails unless the stream is exactly
one encoded table. -/
def decodeTable : List GobToken → Option (List (Int × SvcRecoveryAction))
  | GobToken.n k :: rest =>
    match decodeEntries k rest with
    | some (es, []) => some es
    | _ => none
  | _ => none

/-- The values `saveServiceCfg` (cerberus.go, lines 839-895) writes
under the service's registry key: the string values `Name` through
`WorkDir`, the string lists `Args` and `Env`, and the binary value
`RecoveryActions` — present only when the table is not nil. -/
structure RegistryEntry where
  name : String
  desc : String
  displayName : String
  exePath : String
  workDir : String
  args : List String
  env : List String
  recoveryData : Option (List GobToken)
deriving DecidableEq

/-- The registry entry `saveServiceCfg` creates for a configuration:
every persisted field copied over, the recovery table gob-encoded when
it is not nil (cerberus.go, lines 855-892). -/
def mkRegistryEntry (config : SvcConfig) : RegistryEntry :=
  { name := config.Name
    desc := config.Desc
    displayName := config.DisplayName
    exePath := config.ExePath
    workDir := config.WorkDir
    args := config.Args
    env := config.Env
    recoveryData := config.RecoveryActions.map encodeTable }

/-- `saveServiceCfg` (cerberus.go, lines 839-895).  The registry under
`SOFTWARE\go-sharp\cerberus\services` is modelled as an association
list keyed by service name; creating the key and setting its values is
prepending the fresh entry.  An empty service name is rejected
(line 841).  The SCM property update (line 846) touches no persisted
field of the table and is not modelled. -/
def saveServiceCfg (store : List (String × RegistryEntry)) (config : SvcConfig) :
    Option (List (String × RegistryEntry)) :=
  if config.Name = "" then none
  else some ((config.Name, mkRegistryEntry config) :: store)

/-- `LoadServiceCfg` (cerberus.go, lines 712-790), restricted to the
registry-persisted fields.  An empty name is rejected; a missing key is
an error; a present `RecoveryActions` binary value is gob-decoded (a
decode failure is an error, line 783), and a missing one yields the
empty table (line 786).  Fields filled from the SCM
(`StartType`, `ServiceUser`, `Dependencies`) and the zero-valued
`StopSignal` are not read from the store. -/
def LoadServiceCfg (store : List (String × RegistryEntry)) (name : String) :
    Option SvcConfig :=
  if name = "" then none
  else
    match store.lookup name with
    | none => none
    | some e =>
      match e.recoveryData with
      | some data =>
        match decodeTable data with
        | some t =>
          some ⟨e.name, e.desc, e.displayName, e.exePath, e.workDir, e.args, e.env, some t, 0⟩
        | none => none
      | none =>
        some ⟨e.name, e.desc, e.displayName, e.exePath, e.workDir, e.args, e.env, some [], 0⟩

/-! ### Helper lemmas -/

/-- A flag value with the `RestartAction` bit set is not `NoAction`. -/
theorem land_restart_ne_noAction {a : Nat}
    (h : a &&& RestartAction = RestartAction) : a ≠ NoAction := by
  intro he
  rw [he] at h
  exact absurd h (by decide)

/-- A flag value with the `RunProgramAction` bit set is not `NoAction`. -/
theorem land_runProgram_ne_noAction {a : Nat}
    (h : a &&& RunProgramAction = RunProgramAction) : a ≠ NoAction := by
  intro he
  rw [he] at h
  exact absurd h (by decide)

/-- When the companion program is not an obstacle (its flag is unset, or
its launch succeeds), `handleRecovery` reduces to the restart branch on
the reset-adjusted state, or to `errorStatus` when the restart flag is
unset. -/
theorem handleRecovery_companion_ok {env : RecoveryEnv}
    {action : SvcRecoveryAction} {s : RecoveryState}
    (hNo : action.Action ≠ NoAction)
    (hRunOk : action.Action &&& RunProgramAction = RunProgramAction →
      env.programStartOk = true) :
    handleRecovery env action s =
      if action.Action &&& RestartAction = RestartAction then
        restartBranch env action (resetCounter env action s)
      else (RecoveryHandlerStatus.errorStatus, s) := by
  have hcomp : ¬(action.Action &&& RunProgramAction = RunProgramAction ∧
      env.programStartOk = false) := by
    rintro ⟨h1, h2⟩
    rw [hRunOk h1] at h2
    exact absurd h2 (by decide)
  unfold handleRecovery
  rw [if_neg hNo, if_neg hcomp]

/-- Without a previous restart, the counter-reset step changes nothing. -/
theorem resetCounter_none {env : RecoveryEnv} {action : SvcRecoveryAction}
    {s : RecoveryState} (h : s.lastRestart = none) :
    resetCounter env action s = s := by
  simp [resetCounter, h]

/-- Within the reset window, the counter-reset step changes nothing. -/
theorem resetCounter_within {env : RecoveryEnv} {action : SvcRecoveryAction}
    {s : RecoveryState} {t : Int} (h : s.lastRestart = some t)
    (hw : ¬env.now - t > action.ResetAfter) :
    resetCounter env action s = s := by
  simp [resetCounter, h, hw]

/-- Once the reset window has elapsed, the counter-reset step zeroes the
counter and keeps the last-restart timestamp. -/
theorem resetCounter_elapsed {env : RecoveryEnv} {action : SvcRecoveryAction}
    {s : RecoveryState} {t : Int} (h : s.lastRestart = some t)
    (hw : env.now - t > action.ResetAfter) :
    resetCounter env action s = ⟨0, some t⟩ := by
  simp [resetCounter, h, hw]

/-- A restart-flagged invocation below the limit with a successful
relaunch returns the restart decision and the incremented state. -/
theorem handleRecovery_restart_success {env : RecoveryEnv}
    {action : SvcRecoveryAction} {s : RecoveryState}
    (hRst : action.Action &&& RestartAction = RestartAction)
    (hRunOk : action.Action &&& RunProgramAction = RunProgramAction →
      env.programStartOk = true)
    (hNoReset : resetCounter env action s = s)
    (hLim : ¬(0 < action.MaxRestarts ∧ s.restarts ≥ action.MaxRestarts))
    (hSvc : env.runSvcOk = true) :
    handleRecovery env action s =
      (RecoveryHandlerStatus.rerunServiceStatus, ⟨s.restarts + 1, some env.now2⟩) := by
  rw [handleRecovery_companion_ok (land_restart_ne_noAction hRst) hRunOk,
    if_pos hRst, hNoReset]
  unfold restartBranch
  rw [if_neg hLim, hSvc]
  rfl

/-- A restart-flagged invocation at the limit returns `errorStatus` and
leaves the (reset-adjusted) state unchanged. -/
theorem handleRecovery_restart_limit {env : RecoveryEnv}
    {action : SvcRecoveryAction} {s : RecoveryState}
    (hRst : action.Action &&& RestartAction = RestartAction)
    (hRunOk : action.Action &&& RunProgramAction = RunProgramAction →
      env.programStartOk = true)
    (hNoReset : resetCounter env action s = s)
    (hLim : 0 < action.MaxRestarts ∧ s.restarts ≥ action.MaxRestarts) :
    handleRecovery env action s = (RecoveryHandlerStatus.errorStatus, s) := by
  rw [handleRecovery_companion_ok (land_restart_ne_noAction hRst) hRunOk,
    if_pos hRst, hNoReset]
  unfold restartBranch
  rw [if_pos hLim]

/-- Specialization of `executeDoneStep` to an exit-code completion
event. -/
theorem executeDoneStep_exitErr (cfg : SvcConfig) (env : RecoveryEnv)
    (ec : Int) (s : RecoveryState) :
    executeDoneStep cfg env (DoneEvent.exitErr ec) s =
      (if ec < 0 then LoopResult.stopSuccess
       else
        match lookupAction cfg.RecoveryActions ec with
        | some action =>
          match handleRecovery env action s with
          | (RecoveryHandlerStatus.rerunServiceStatus, s2) => LoopResult.continueLoop s2
          | (RecoveryHandlerStatus.shutdownGracefullyStatus, _) => LoopResult.stopSuccess
          | (RecoveryHandlerStatus.errorStatus, _) => LoopResult.stopFailure 3
        | none => LoopResult.stopFailure 3) := rfl

/-- Specialization of `executeDoneStep` to a non-negative exit code with
a configured recovery action: the result is dictated by
`handleRecovery`. -/
theorem executeDoneStep_lookup (cfg : SvcConfig) (env : RecoveryEnv)
    (ec : Int) (s : RecoveryState) (action : SvcRecoveryAction)
    (hec : ¬ec < 0)
    (hlook : lookupAction cfg.RecoveryActions ec = some action) :
    executeDoneStep cfg env (DoneEvent.exitErr ec) s =
      (match handleRecovery env action s with
       | (RecoveryHandlerStatus.rerunServiceStatus, s2) => LoopResult.continueLoop s2
       | (RecoveryHandlerStatus.shutdownGracefullyStatus, _) => LoopResult.stopSuccess
       | (RecoveryHandlerStatus.errorStatus, _) => LoopResult.stopFailure 3) := by
  rw [executeDoneStep_exitErr, if_neg hec, hlook]

/-! ### The claims -/

/-- C1, as stated, is false of the code: for an action whose kind is
`RunAndRestartAction`, a failed companion-program launch makes
`handleRecovery` return `errorStatus` at once (handler.go, line 147);
the restart branch is never reached and no restart decision is
returned. -/
theorem handleRecovery_companionFailure_counterexample :
    handleRecovery ⟨false, true, 0, 0⟩ ⟨1, RunAndRestartAction, 0, 0, 0, "notify.exe", []⟩
        ⟨0, none⟩ =
      (RecoveryHandlerStatus.errorStatus, ⟨0, none⟩) ∧
    (handleRecovery ⟨false, true, 0, 0⟩ ⟨1, RunAndRestartAction, 0, 0, 0, "notify.exe", []⟩
        ⟨0, none⟩).1 ≠ RecoveryHandlerStatus.rerunServiceStatus := by
  constructor
  · decide
  · decide

/-- C1 (amended): if launching the companion program fails,
`handleRecovery` returns `errorStatus` with the state unchanged,
regardless of whether the `Restart` flag is also set — companion-program
failure aborts a restart that would otherwise proceed. -/
theorem handleRecovery_companionFailure_aborts (env : RecoveryEnv)
    (action : SvcRecoveryAction) (s : RecoveryState)
    (hProg : action.Action &&& RunProgramAction = RunProgramAction)
    (hFail : env.programStartOk = false) :
    handleRecovery env action s = (RecoveryHandlerStatus.errorStatus, s) := by
  unfold handleRecovery
  rw [if_neg (land_runProgram_ne_noAction hProg), if_pos ⟨hProg, hFail⟩]

/-- Witness for the amended C1 at a concrete run-and-restart action. -/
theorem handleRecovery_companionFailure_aborts_witness :
    handleRecovery ⟨false, true, 100, 100⟩ ⟨2, 6, 1, 5, 3600, "helper.exe", ["-q"]⟩
        ⟨3, some 42⟩ =
      (RecoveryHandlerStatus.errorStatus, ⟨3, some 42⟩) :=
  handleRecovery_companionFailure_aborts _ _ _ (by decide) rfl

/-- C2, as stated, is false of the code: a `NoAction` table entry makes
`handleRecovery` return `shutdownGracefullyStatus` (handler.go, line
140), upon which `Execute` breaks the loop, reports `Stopped` and
returns with exit code 0 — success, not a non-zero failure code. -/
theorem noAction_reportsFailure_counterexample :
    executeDoneStep ⟨"svc", "", "", "C:\x5capp.exe", "", [], [],
        some [(1, ⟨1, NoAction, 0, 0, 0, "", []⟩)], 0⟩
      ⟨true, true, 0, 0⟩ (DoneEvent.exitErr 1) ⟨0, none⟩ = LoopResult.stopSuccess ∧
    executeDoneStep ⟨"svc", "", "", "C:\x5capp.exe", "", [], [],
        some [(1, ⟨1, NoAction, 0, 0, 0, "", []⟩)], 0⟩
      ⟨true, true, 0, 0⟩ (DoneEvent.exitErr 1) ⟨0, none⟩ ≠ LoopResult.stopFailure 3 := by
  constructor
  · decide
  · decide

/-- C2 (amended): for every exit code whose recovery-table entry has
action kind `None`, `handleRecovery` returns the graceful-shutdown
status and the controller exits its loop reporting the service stopped
with success (exit code 0); no failure code is surfaced. -/
theorem noAction_stopsGracefully (cfg : SvcConfig) (env : RecoveryEnv)
    (ec : Int) (action : SvcRecoveryAction) (s : RecoveryState)
    (hec : 0 ≤ ec)
    (hlook : lookupAction cfg.RecoveryActions ec = some action)
    (hA : action.Action = NoAction) :
    handleRecovery env action s = (RecoveryHandlerStatus.shutdownGracefullyStatus, s) ∧
    executeDoneStep cfg env (DoneEvent.exitErr ec) s = LoopResult.stopSuccess := by
  have h1 : handleRecovery env action s =
      (RecoveryHandlerStatus.shutdownGracefullyStatus, s) := by
    unfold handleRecovery
    rw [if_pos hA]
  refine ⟨h1, ?_⟩
  rw [executeDoneStep_lookup cfg env ec s action (not_lt.mpr hec) hlook, h1]

/-- Witness for the amended C2 at a concrete configuration. -/
theorem noAction_stopsGracefully_witness :
    handleRecovery ⟨true, true, 7, 7⟩ ⟨5, 1, 0, 0, 0, "", []⟩ ⟨2, some 1⟩ =
      (RecoveryHandlerStatus.shutdownGracefullyStatus, ⟨2, some 1⟩) ∧
    executeDoneStep ⟨"svc", "", "", "C:\x5capp.exe", "", [], [],
        some [(5, ⟨5, 1, 0, 0, 0, "", []⟩)], 0⟩
      ⟨true, true, 7, 7⟩ (DoneEvent.exitErr 5) ⟨2, some 1⟩ = LoopResult.stopSuccess :=
  noAction_stopsGracefully _ _ 5 _ _ (by decide) (by decide) (by decide)

/-- C5: an abnormal exit with a non-negative exit code that has no entry
in the recovery-action table takes no recovery action and ends the
service with supervisor exit code 3, for every effect environment. -/
theorem unknownExitCode_stopsWithFailure (cfg : SvcConfig) (env : RecoveryEnv)
    (ec : Int) (s : RecoveryState)
    (hec : 0 ≤ ec)
    (hnone : lookupAction cfg.RecoveryActions ec = none) :
    executeDoneStep cfg env (DoneEvent.exitErr ec) s = LoopResult.stopFailure 3 := by
  rw [executeDoneStep_exitErr, if_neg (not_lt.mpr hec), hnone]

/-- Witness for C5: exit code 5 against an empty table (spec example
scenario 2). -/
theorem unknownExitCode_stopsWithFailure_witness :
    executeDoneStep ⟨"svc", "", "", "C:\x5capp.exe", "", [], [], some [], 0⟩
      ⟨true, true, 0, 0⟩ (DoneEvent.exitErr 5) ⟨0, none⟩ = LoopResult.stopFailure 3 :=
  unknownExitCode_stopsWithFailure _ _ 5 _ (by decide) (by decide)

/-- C6: a completion event whose exit code is the negative
terminated-by-signal sentinel never consults the recovery engine — the
result is a successful stop for every configuration (hence for every
configured recovery table), every effect environment and every counter
state. -/
theorem signalTermination_skipsRecovery (cfg : SvcConfig) (env : RecoveryEnv)
    (ec : Int) (s : RecoveryState) (hec : ec < 0) :
    executeDoneStep cfg env (DoneEvent.exitErr ec) s = LoopResult.stopSuccess := by
  rw [executeDoneStep_exitErr, if_pos hec]

/-- Witness for C6: the signal sentinel -1 with a restart action
configured for every relevant code still stops with success. -/
theorem signalTermination_skipsRecovery_witness :
    executeDoneStep ⟨"svc", "", "", "C:\x5capp.exe", "", [], [],
        some [(0, ⟨0, 2, 0, 0, 0, "", []⟩), (1, ⟨1, 6, 0, 0, 0, "p", []⟩)], 0⟩
      ⟨true, true, 0, 0⟩ (DoneEvent.exitErr (-1)) ⟨0, none⟩ = LoopResult.stopSuccess :=
  signalTermination_skipsRecovery _ _ (-1) _ (by decide)

/-- C7: with an empty stop-signal set, `shutdown` sends no cooperative
signal and enters no 30-second wait: whatever the completion race would
have produced, it force-kills the process tree immediately and then
blocks on the completion event. -/
theorem emptySignalSet_forceKillsImmediately (b : Bool) :
    shutdown NoSignal b = [ShutdownEvent.killTree, ShutdownEvent.waitDone] := by
  cases b <;> rfl

/-- C8: with a non-empty stop-signal set, if the completion event
arrives before the 30-second timeout, the force-kill of the process
tree is never invoked and the timeout never elapses. -/
theorem honoredSignal_noForceKill (sig : Nat) (h : sig > NoSignal) :
    ShutdownEvent.killTree ∉ shutdown sig true ∧
    ShutdownEvent.waitTimeout ∉ shutdown sig true := by
  unfold shutdown
  rw [if_pos h]
  have hd : (if (true : Bool) then [ShutdownEvent.waitDone]
      else [ShutdownEvent.waitTimeout, ShutdownEvent.killTree, ShutdownEvent.waitDone]) =
      [ShutdownEvent.waitDone] := rfl
  rw [hd]
  split_ifs <;> decide

/-- Witness for C8 at the concrete signal set {WM_QUIT}. -/
theorem honoredSignal_noForceKill_witness :
    ShutdownEvent.killTree ∉ shutdown 1 true ∧
    ShutdownEvent.waitTimeout ∉ shutdown 1 true :=
  honoredSignal_noForceKill 1 (by decide)

/-- C4: on a restart-flagged invocation where a previous restart exists
and more than `ResetAfter` has elapsed since it, `handleRecovery`
behaves exactly like the restart branch applied to the zeroed counter —
the reset happens before the limit check, whatever the counter held; and
with no previous restart the reset step leaves the state untouched. -/
theorem counterReset_beforeLimitCheck (env : RecoveryEnv)
    (action : SvcRecoveryAction) (s : RecoveryState) (t : Int)
    (hRst : action.Action &&& RestartAction = RestartAction)
    (hRunOk : action.Action &&& RunProgramAction = RunProgramAction →
      env.programStartOk = true)
    (hPrev : s.lastRestart = some t)
    (hElapsed : env.now - t > action.ResetAfter) :
    handleRecovery env action s = restartBranch env action ⟨0, some t⟩ ∧
    (∀ s2 : RecoveryState, s2.lastRestart = none → resetCounter env action s2 = s2) := by
  constructor
  · rw [handleRecovery_companion_ok (land_restart_ne_noAction hRst) hRunOk,
      if_pos hRst, resetCounter_elapsed hPrev hElapsed]
  · intro s2 h2
    exact resetCounter_none h2

/-- Witness for C4: counter 7 is zeroed once 100 seconds have passed
against a 10-second reset window. -/
theorem counterReset_beforeLimitCheck_witness :
    handleRecovery ⟨true, true, 100, 100⟩ ⟨1, 2, 0, 3, 10, "", []⟩ ⟨7, some 0⟩ =
      restartBranch ⟨true, true, 100, 100⟩ ⟨1, 2, 0, 3, 10, "", []⟩ ⟨0, some 0⟩ ∧
    (∀ s2 : RecoveryState, s2.lastRestart = none →
      resetCounter ⟨true, true, 100, 100⟩ ⟨1, 2, 0, 3, 10, "", []⟩ s2 = s2) :=
  counterReset_beforeLimitCheck _ _ _ 0 (by decide) (fun _ => rfl) rfl (by decide)

/-- C10 (implicit): when the policy decides to restart (restart flag
set, companion not failing, limit not reached) but relaunching the
executable fails, `handleRecovery` returns `errorStatus` with the
counter already incremented — the increment is not rolled back — and
the controller stops the service with supervisor exit code 3. -/
theorem relaunchFailure_stopsWithFailure (cfg : SvcConfig) (env : RecoveryEnv)
    (action : SvcRecoveryAction) (s : RecoveryState) (ec : Int)
    (hec : 0 ≤ ec)
    (hlook : lookupAction cfg.RecoveryActions ec = some action)
    (hRst : action.Action &&& RestartAction = RestartAction)
    (hRunOk : action.Action &&& RunProgramAction = RunProgramAction →
      env.programStartOk = true)
    (hLim : ¬(0 < action.MaxRestarts ∧
      (resetCounter env action s).restarts ≥ action.MaxRestarts))
    (hSvc : env.runSvcOk = false) :
    handleRecovery env action s =
      (RecoveryHandlerStatus.errorStatus,
        ⟨(resetCounter env action s).restarts + 1, some env.now2⟩) ∧
    executeDoneStep cfg env (DoneEvent.exitErr ec) s = LoopResult.stopFailure 3 := by
  have h1 : handleRecovery env action s =
      (RecoveryHandlerStatus.errorStatus,
        ⟨(resetCounter env action s).restarts + 1, some env.now2⟩) := by
    rw [handleRecovery_companion_ok (land_restart_ne_noAction hRst) hRunOk, if_pos hRst]
    unfold restartBranch
    rw [if_neg hLim, hSvc]
    rfl
  refine ⟨h1, ?_⟩
  rw [executeDoneStep_lookup cfg env ec s action (not_lt.mpr hec) hlook, h1]

/-- Witness for C10: restart action for exit code 1, relaunch fails at
counter 0; the counter ends at 1 and the service stops with code 3. -/
theorem relaunchFailure_stopsWithFailure_witness :
    handleRecovery ⟨true, false, 5, 5⟩ ⟨1, 2, 0, 0, 0, "", []⟩ ⟨0, none⟩ =
      (RecoveryHandlerStatus.errorStatus, ⟨1, some 5⟩) ∧
    executeDoneStep ⟨"svc", "", "", "C:\x5capp.exe", "", [], [],
        some [(1, ⟨1, 2, 0, 0, 0, "", []⟩)], 0⟩
      ⟨true, false, 5, 5⟩ (DoneEvent.exitErr 1) ⟨0, none⟩ = LoopResult.stopFailure 3 :=
  relaunchFailure_stopsWithFailure _ _ _ _ 1 (by decide) (by decide) (by decide)
    (fun h => absurd h (by decide)) (by decide) rfl

/-- The counter-reset step never changes the expected state sequence:
the first state has no previous restart, and every later state's last
restart lies within the reset window by assumption. -/
theorem resetCounter_expectedState (action : SvcRecoveryAction)
    (envs : Nat → RecoveryEnv)
    (hWin : ∀ k, ¬(envs (k + 1)).now - (envs k).now2 > action.ResetAfter)
    (j : Nat) :
    resetCounter (envs j) action (expectedState envs j) = expectedState envs j := by
  cases j with
  | zero => exact resetCounter_none rfl
  | succ i => exact resetCounter_within rfl (hWin i)

/-- The restart counter of the expected state after k restarts is k. -/
theorem expectedState_restarts (envs : Nat → RecoveryEnv) (k : Nat) :
    (expectedState envs k).restarts = (k : Int) := by
  cases k with
  | zero => rfl
  | succ j =>
    show (j : Int) + 1 = ((j + 1 : Nat) : Int)
    omega

/-- Under a restart action whose limit is N, as long as every relaunch
succeeds and every exit falls within the reset window, the first N
invocations of `handleRecovery` each increment the counter by one. -/
theorem recoverySeq_eq_expectedState (action : SvcRecoveryAction)
    (envs : Nat → RecoveryEnv) (N : Nat)
    (hRst : action.Action &&& RestartAction = RestartAction)
    (hRun : ∀ k, action.Action &&& RunProgramAction = RunProgramAction →
      (envs k).programStartOk = true)
    (hSvc : ∀ k, (envs k).runSvcOk = true)
    (hMax : action.MaxRestarts = (N : Int))
    (hWin : ∀ k, ¬(envs (k + 1)).now - (envs k).now2 > action.ResetAfter) :
    ∀ k, k ≤ N → recoverySeq action envs k = expectedState envs k := by
  intro k
  induction k with
  | zero => intro _; rfl
  | succ j ih =>
    intro hle
    have hseq := ih (Nat.le_of_succ_le hle)
    show (handleRecovery (envs j) action (recoverySeq action envs j)).2 = _
    rw [hseq]
    have hLim : ¬(0 < action.MaxRestarts ∧
        (expectedState envs j).restarts ≥ action.MaxRestarts) := by
      rintro ⟨-, hge⟩
      rw [expectedState_restarts, hMax] at hge
      have hNj : N ≤ j := by exact_mod_cast hge
      omega
    rw [handleRecovery_restart_success hRst (hRun j)
      (resetCounter_expectedState action envs hWin j) hLim (hSvc j),
      expectedState_restarts]
    rfl

/-- C3: with `maxRestarts = N > 0` and N+1 abnormal exits with the same
configured exit code, all within the reset window and with every
relaunch succeeding: each of the first N evaluations returns the
restart decision and leaves the counter incremented to k+1, the counter
stands at N before the (N+1)-th evaluation, and that evaluation returns
`errorStatus` (the limit-exceeded give-up) without touching the state. -/
theorem restartLimitExceeded (action : SvcRecoveryAction)
    (envs : Nat → RecoveryEnv) (N : Nat)
    (hRst : action.Action &&& RestartAction = RestartAction)
    (hRun : ∀ k, action.Action &&& RunProgramAction = RunProgramAction →
      (envs k).programStartOk = true)
    (hSvc : ∀ k, (envs k).runSvcOk = true)
    (hMax : action.MaxRestarts = (N : Int))
    (hN : 0 < N)
    (hWin : ∀ k, ¬(envs (k + 1)).now - (envs k).now2 > action.ResetAfter) :
    (∀ k, k < N →
      handleRecovery (envs k) action (recoverySeq action envs k) =
        (RecoveryHandlerStatus.rerunServiceStatus,
          ⟨(k : Int) + 1, some ((envs k).now2)⟩)) ∧
    (recoverySeq action envs N).restarts = (N : Int) ∧
    handleRecovery (envs N) action (recoverySeq action envs N) =
      (RecoveryHandlerStatus.errorStatus, recoverySeq action envs N) := by
  have haux := recoverySeq_eq_expectedState action envs N hRst hRun hSvc hMax hWin
  refine ⟨?_, ?_, ?_⟩
  · intro k hk
    rw [haux k (le_of_lt hk)]
    have hLim : ¬(0 < action.MaxRestarts ∧
        (expectedState envs k).restarts ≥ action.MaxRestarts) := by
      rintro ⟨-, hge⟩
      rw [expectedState_restarts, hMax] at hge
      have hNk : N ≤ k := by exact_mod_cast hge
      omega
    rw [handleRecovery_restart_success hRst (hRun k)
      (resetCounter_expectedState action envs hWin k) hLim (hSvc k),
      expectedState_restarts]
  · rw [haux N le_rfl, expectedState_restarts]
  · rw [haux N le_rfl]
    obtain ⟨M, rfl⟩ : ∃ M, N = M + 1 := ⟨N - 1, by omega⟩
    exact handleRecovery_restart_limit hRst (hRun (M + 1))
      (resetCounter_expectedState action envs hWin (M + 1))
      ⟨by omega, by rw [expectedState_restarts]; omega⟩

/-- Witness for C3: the spec's example scenario 1 — restart action with
delay 0, maxRestarts 2, reset window 60s; two restarts succeed, the
third evaluation gives up. -/
theorem restartLimitExceeded_witness :
    (∀ k : Nat, k < 2 →
      handleRecovery ((fun j => (⟨true, true, (j : Int), (j : Int)⟩ : RecoveryEnv)) k)
          (⟨1, 2, 0, 2, 60, "", []⟩ : SvcRecoveryAction)
          (recoverySeq ⟨1, 2, 0, 2, 60, "", []⟩
            (fun j => ⟨true, true, (j : Int), (j : Int)⟩) k) =
        (RecoveryHandlerStatus.rerunServiceStatus, ⟨(k : Int) + 1, some (k : Int)⟩)) ∧
    (recoverySeq ⟨1, 2, 0, 2, 60, "", []⟩
      (fun j => ⟨true, true, (j : Int), (j : Int)⟩) 2).restarts = (2 : Int) ∧
    handleRecovery ((fun j => (⟨true, true, (j : Int), (j : Int)⟩ : RecoveryEnv)) 2)
        (⟨1, 2, 0, 2, 60, "", []⟩ : SvcRecoveryAction)
        (recoverySeq ⟨1, 2, 0, 2, 60, "", []⟩
          (fun j => ⟨true, true, (j : Int), (j : Int)⟩) 2) =
      (RecoveryHandlerStatus.errorStatus,
        recoverySeq ⟨1, 2, 0, 2, 60, "", []⟩
          (fun j => ⟨true, true, (j : Int), (j : Int)⟩) 2) :=
  restartLimitExceeded ⟨1, 2, 0, 2, 60, "", []⟩
    (fun j => ⟨true, true, (j : Int), (j : Int)⟩) 2
    (by decide) (fun _ _ => rfl) (fun _ => rfl) (by decide) (by decide)
    (fun k => by
      show ¬((k + 1 : Nat) : Int) - ((k : Nat) : Int) > (60 : Int)
      omega)

/-- Decoding inverts encoding for a run of string tokens. -/
theorem decodeStrings_encodeStrings (xs : List String) (r : List GobToken) :
    decodeStrings xs.length (xs.map GobToken.s ++ r) = some (xs, r) := by
  induction xs with
  | nil => rfl
  | cons x xs ih => simp [decodeStrings, ih]

/-- Decoding inverts encoding for one recovery action. -/
theorem decodeAction_encodeAction (a : SvcRecoveryAction) (r : List GobToken) :
    decodeAction (encodeAction a ++ r) = some (a, r) := by
  simp [encodeAction, decodeAction, decodeStrings_encodeStrings]

/-- Decoding inverts encoding for a run of table entries. -/
theorem decodeEntries_encodeEntries (t : List (Int × SvcRecoveryAction))
    (r : List GobToken) :
    decodeEntries t.length (encodeEntries t ++ r) = some (t, r) := by
  induction t with
  | nil => rfl
  | cons p t ih =>
    obtain ⟨ec, a⟩ := p
    simp [encodeEntries, decodeEntries, List.append_assoc,
      decodeAction_encodeAction, ih]

/-- Decoding inverts encoding for a whole recovery-action table. -/
theorem decodeTable_encodeTable (t : List (Int × SvcRecoveryAction)) :
    decodeTable (encodeTable t) = some t := by
  have h := decodeEntries_encodeEntries t []
  rw [List.append_nil] at h
  simp [encodeTable, decodeTable, h]

/-- C9: saving a configuration and loading it back under the same
service name succeeds and yields a configuration whose recovery-action
table is identical to the saved one — every exit-code key maps to the
same action flags, delay, maximum-restart count, reset duration,
program path and argument list.  (A nil table is saved as an absent
binary value and loaded back as the empty table; both have no
entries.) -/
theorem saveLoad_roundtrip (store : List (String × RegistryEntry))
    (cfg : SvcConfig) (h : cfg.Name ≠ "") :
    ∃ store2, saveServiceCfg store cfg = some store2 ∧
      ∃ cfg2, LoadServiceCfg store2 cfg.Name = some cfg2 ∧
        ∀ ec, lookupAction cfg2.RecoveryActions ec =
          lookupAction cfg.RecoveryActions ec := by
  refine ⟨(cfg.Name, mkRegistryEntry cfg) :: store, ?_, ?_⟩
  · unfold saveServiceCfg
    rw [if_neg h]
  · have hlk : ((cfg.Name, mkRegistryEntry cfg) :: store).lookup cfg.Name =
        some (mkRegistryEntry cfg) := by
      simp [List.lookup]
    cases hRA : cfg.RecoveryActions with
    | none =>
      refine ⟨⟨cfg.Name, cfg.Desc, cfg.DisplayName, cfg.ExePath, cfg.WorkDir,
        cfg.Args, cfg.Env, some [], 0⟩, ?_, ?_⟩
      · unfold LoadServiceCfg
        rw [if_neg h, hlk]
        simp [mkRegistryEntry, hRA]
      · intro ec
        rfl
    | some t =>
      refine ⟨⟨cfg.Name, cfg.Desc, cfg.DisplayName, cfg.ExePath, cfg.WorkDir,
        cfg.Args, cfg.Env, some t, 0⟩, ?_, ?_⟩
      · unfold LoadServiceCfg
        rw [if_neg h, hlk]
        simp [mkRegistryEntry, hRA, decodeTable_encodeTable]
      · intro ec
        rfl

/-- Witness for C9: a two-entry table survives the save/load
round-trip. -/
theorem saveLoad_roundtrip_witness :
    ∃ store2,
      saveServiceCfg []
        ⟨"mysvc", "demo", "My Svc", "C:\x5capp.exe", "C:\x5cwork", ["-a"], ["K=V"],
          some [(1, ⟨1, 2, 0, 2, 60, "", []⟩), (7, ⟨7, 6, 1, 3, 120, "h.exe", ["x", "y"]⟩)],
          0⟩ = some store2 ∧
      ∃ cfg2, LoadServiceCfg store2 "mysvc" = some cfg2 ∧
        ∀ ec, lookupAction cfg2.RecoveryActions ec =
          lookupAction (some [(1, ⟨1, 2, 0, 2, 60, "", []⟩),
            (7, ⟨7, 6, 1, 3, 120, "h.exe", ["x", "y"]⟩)]) ec :=
  saveLoad_roundtrip []
    ⟨"mysvc", "demo", "My Svc", "C:\x5capp.exe", "C:\x5cwork", ["-a"], ["K=V"],
      some [(1, ⟨1, 2, 0, 2, 60, "", []⟩), (7, ⟨7, 6, 1, 3, 120, "h.exe", ["x", "y"]⟩)],
      0⟩ (by decide)

end Cerberus
